import Mathlib

/-!
Verification of the standardness policy evaluator in `check_knots_spam.py`.

The program parses a transaction and runs `check_standard_tx`, an ordered
battery of thirteen checks (script templates, economics, mempool topology),
returning a boolean verdict and printing a reason for the first failing
check.  We embed the data model and every check as executable Lean
definitions and prove the specification's claims about them.

Bytes are modelled as `Nat` (the source indexes Python `bytes`), scripts as
`List Nat`, amounts as `Nat` for output values and `Int` for fees (input
minus output value can be negative), and the `Decimal` fee-rate arithmetic
as exact rationals.  RPC-supplied data (previous-output values, mempool
ancestor/descendant statistics) is a caller-supplied `Context`, matching
the specification's data-flow description.
-/

namespace KnotsSpam

/-- A script is a byte sequence; each byte is a `Nat` (value < 256 in real
data, but the source never relies on that bound). -/
abbrev Script := List Nat

/-- Opcode constants used by the source (imported there from the bitcoin
library). -/
def OP_DUP : Nat := 0x76

def OP_HASH160 : Nat := 0xa9

def OP_EQUALVERIFY : Nat := 0x88

def OP_CHECKSIG : Nat := 0xac

def OP_EQUAL : Nat := 0x87

def OP_RETURN : Nat := 0x6a

/-- Python `script[i]`; every access in the source is guarded by a length
check, so the default value is never observable. -/
def byteAt (s : Script) (i : Nat) : Nat := s.getD i 0

/-- Policy constants from the source header. -/
def MAX_STANDARD_TX_WEIGHT : Nat := 400000

def MAX_STANDARD_SCRIPTSIG_SIZE : Nat := 1650

def DUST_RELAY_TX_FEE : Nat := 3000

def DEFAULT_BYTES_PER_SIGOP : Nat := 20

def MAX_UNCONFIRMED_ANCESTORS : Nat := 25

def MAX_ANCESTOR_SIZE_KB : Nat := 101

def MAX_DESCENDANT_COUNT : Nat := 25

def MAX_DESCENDANT_SIZE_KB : Nat := 101

def MIN_BYTES_PER_SIGOP : Nat := 20

/-- `is_standard_script` from the source: three guarded template tests in
order (P2PKH, P2SH, OP_RETURN), else `False`.  Note the source's P2SH
branch tests byte 22 against `OP_EQUALVERIFY`, not `OP_EQUAL`. -/
def is_standard_script (script : Script) : Bool :=
  if script.length = 25 ∧ byteAt script 0 = OP_DUP ∧ byteAt script 1 = OP_HASH160 ∧
      byteAt script 2 = 0x14 ∧ byteAt script 23 = OP_EQUALVERIFY ∧
      byteAt script 24 = OP_CHECKSIG then
    true
  else if script.length = 23 ∧ byteAt script 0 = OP_HASH160 ∧ byteAt script 1 = 0x14 ∧
      byteAt script 22 = OP_EQUALVERIFY then
    true
  else if 0 < script.length ∧ byteAt script 0 = OP_RETURN then
    true
  else
    false

/-- The specification's `ScriptKind` enumeration. -/
inductive ScriptKind where
  | payToPubkeyHash
  | payToScriptHash
  | dataCarrier
  | unrecognized
deriving DecidableEq, Repr

/-- The specification's `classify`: the same branch cascade as
`is_standard_script`, with each `return True` branch tagged by the template
it matched and the fall-through tagged `unrecognized`. -/
def classify (script : Script) : ScriptKind :=
  if script.length = 25 ∧ byteAt script 0 = OP_DUP ∧ byteAt script 1 = OP_HASH160 ∧
      byteAt script 2 = 0x14 ∧ byteAt script 23 = OP_EQUALVERIFY ∧
      byteAt script 24 = OP_CHECKSIG then
    .payToPubkeyHash
  else if script.length = 23 ∧ byteAt script 0 = OP_HASH160 ∧ byteAt script 1 = 0x14 ∧
      byteAt script 22 = OP_EQUALVERIFY then
    .payToScriptHash
  else if 0 < script.length ∧ byteAt script 0 = OP_RETURN then
    .dataCarrier
  else
    .unrecognized

/-- The boolean test and the classifier agree: a script is standard exactly
when it classifies as something other than `unrecognized`. -/
theorem is_standard_script_iff_classify (s : Script) :
    is_standard_script s = true ↔ classify s ≠ .unrecognized := by
  unfold is_standard_script classify
  split
  · simp
  · split
    · simp
    · split
      · simp
      · simp

/-- The canonical 25-byte pay-to-pubkey-hash template for a given hash
payload: `DUP HASH160 0x14 <payload> EQUALVERIFY CHECKSIG`. -/
def p2pkh_template (payload : Script) : Script :=
  OP_DUP :: OP_HASH160 :: 0x14 :: (payload ++ [OP_EQUALVERIFY, OP_CHECKSIG])

/-- The canonical 23-byte pay-to-script-hash script for the all-zero hash:
`HASH160 0x14 <20 zero bytes> EQUAL`. -/
def canonical_p2sh : Script :=
  OP_HASH160 :: 0x14 :: (List.replicate 20 0 ++ [OP_EQUAL])

/-- The same script with `EQUALVERIFY` in place of the trailing `EQUAL`:
the shape the source's second branch actually accepts. -/
def equalverify_p2sh : Script :=
  OP_HASH160 :: 0x14 :: (List.replicate 20 0 ++ [OP_EQUALVERIFY])

/-- C4: the classifier does not return PayToScriptHash for the canonical
`HASH160 <push 20 bytes> EQUAL` script: the source tests byte 22 against
`OP_EQUALVERIFY` (0x88) instead of `OP_EQUAL` (0x87), contradicting its own
comment.  The canonical P2SH script falls through to `unrecognized`, while
the `EQUALVERIFY`-terminated variant is the one classified
`payToScriptHash`. -/
theorem p2sh_trailing_opcode_bug :
    classify canonical_p2sh = .unrecognized ∧
    classify equalverify_p2sh = .payToScriptHash ∧
    byteAt canonical_p2sh 22 = OP_EQUAL ∧
    is_standard_script canonical_p2sh = false := by
  decide

/-- C6: `classify` is total and deterministic: every byte sequence maps to
exactly one `ScriptKind`, and the empty script maps to `unrecognized`. -/
theorem classify_total :
    classify [] = .unrecognized ∧ ∀ s : Script, ∃! k : ScriptKind, classify s = k := by
  refine ⟨by decide, fun s => ⟨classify s, rfl, fun y hy => hy.symm⟩⟩

/-- C7: round-trip: building the canonical 25-byte P2PKH template around
any 20-byte hash payload and classifying it yields `payToPubkeyHash`. -/
theorem classify_p2pkh_template (payload : Script) (h : payload.length = 20) :
    classify (p2pkh_template payload) = .payToPubkeyHash := by
  have h23 : byteAt (p2pkh_template payload) 23 = OP_EQUALVERIFY := by
    simp only [p2pkh_template, byteAt, List.getD_cons_succ]
    rw [List.getD_append_right _ _ _ _ (by omega : payload.length ≤ 20)]
    simp [h]
  have h24 : byteAt (p2pkh_template payload) 24 = OP_CHECKSIG := by
    simp only [p2pkh_template, byteAt, List.getD_cons_succ]
    rw [List.getD_append_right _ _ _ _ (by omega : payload.length ≤ 21)]
    simp [h]
  have hlen : (p2pkh_template payload).length = 25 := by
    simp [p2pkh_template, h]
  unfold classify
  rw [if_pos ⟨hlen, rfl, rfl, rfl, h23, h24⟩]

/-- Witness for C7 at the all-zero payload. -/
theorem classify_p2pkh_template_witness :
    classify (p2pkh_template (List.replicate 20 0)) = .payToPubkeyHash :=
  classify_p2pkh_template (List.replicate 20 0) (by decide)

/-- A transaction output: a value in satoshis and a locking script. -/
structure TxOut where
  nValue : Nat
  scriptPubKey : Script
deriving DecidableEq, Repr

/-- A transaction input: its unlocking script.  The previous-output
reference is represented positionally: the `Context` supplies the
previous-output value for input `i` (the source resolves the reference over
RPC; the specification models that as caller-supplied context). -/
structure TxIn where
  scriptSig : Script
deriving DecidableEq, Repr

/-- A parsed transaction.  `weight` and `vsize` are the values the codec
collaborator's `tx.get_weight()` and `tx.get_vsize()` return. -/
structure Tx where
  vin : List TxIn
  vout : List TxOut
  weight : Nat
  vsize : Nat
deriving DecidableEq, Repr

/-- Caller-supplied context: the previous-output value for each input by
position (`none` when the lookup failed, the source's `JSONRPCException`
path), and the mempool ancestor/descendant statistics for the
transaction's own id. -/
structure Context where
  prevouts : List (Option Nat)
  ancestorCount : Nat
  ancestorSize : Nat
  descendantCount : Nat
  descendantSize : Nat
deriving DecidableEq, Repr

/-- The previous-output value available for input `i`. -/
def prevValue (ctx : Context) (i : Nat) : Option Nat := ctx.prevouts.getD i none

/-- Sum of the previous-output values of the first `n` inputs; `none` as
soon as any value is unavailable (the source returns `None` from
`get_transaction_fee` on the first failed lookup). -/
def totalInputValue (ctx : Context) : Nat → Option Nat
  | 0 => some 0
  | n + 1 =>
    match totalInputValue ctx n, prevValue ctx n with
    | some s, some v => some (s + v)
    | _, _ => none

/-- `get_transaction_fee` from the source: total input value minus total
output value, or `None` when some previous output could not be fetched. -/
def get_transaction_fee (tx : Tx) (ctx : Context) : Option Int :=
  match totalInputValue ctx tx.vin.length with
  | none => none
  | some tot => some ((tot : Int) - (tx.vout.map TxOut.nValue).sum)

/-- Fee rate as computed at source line 162: `Decimal(fee) / (weight / 4)`,
modelled as exact rational arithmetic. -/
def fee_rate (fee : Int) (weight : Nat) : ℚ :=
  (fee : ℚ) / ((weight : ℚ) / 4)

/-- The literal fee-rate threshold `0.00001000` from source line 163. -/
def MIN_FEE_RATE : ℚ := 1 / 100000

/-- Check 5's adjusted virtual size: vsize plus 20 bytes for each estimated
sigop, where sigops are estimated as `len(scriptSig) // 20` per input. -/
def adjusted_vsize (tx : Tx) : Nat :=
  tx.vsize +
    (tx.vin.map (fun txin => txin.scriptSig.length / DEFAULT_BYTES_PER_SIGOP)).sum *
      DEFAULT_BYTES_PER_SIGOP

/-- Modelled from the spec: the script library's `is_opreturn` used by
`contains_non_bitcoin_protocol` is not part of the repository; per the
specification's overlay detector it holds of data-carrying outputs, i.e.
scripts whose first byte is the data-carrier opcode. -/
def is_opreturn (s : Script) : Bool :=
  decide (0 < s.length ∧ byteAt s 0 = OP_RETURN)

/-- `marker.leadsList s`: `marker` is an initial segment of `s` (helper for
Python's bytes containment test). -/
def leadsList : List Nat → List Nat → Bool
  | [], _ => true
  | _ :: _, [] => false
  | a :: as, b :: bs => a == b && leadsList as bs

/-- `hasMarker marker s`: `marker` occurs contiguously inside `s`
(Python's `marker in script`). -/
def hasMarker (marker : List Nat) : List Nat → Bool
  | [] => leadsList marker []
  | b :: bs => leadsList marker (b :: bs) || hasMarker marker bs

/-- The ASCII bytes of the source's hardcoded overlay markers. -/
def omniMarker : List Nat := [0x4f, 0x6d, 0x6e, 0x69]

def rskMarker : List Nat := [0x52, 0x53, 0x4b]

/-- `contains_non_bitcoin_protocol` from the source: some output is a
data-carrying script containing one of the two hardcoded marker byte
strings. -/
def contains_non_bitcoin_protocol (tx : Tx) : Bool :=
  tx.vout.any fun txout =>
    is_opreturn txout.scriptPubKey &&
      (hasMarker omniMarker txout.scriptPubKey || hasMarker rskMarker txout.scriptPubKey)

/-- Modelled from the spec: the script library's `is_bare_pubkey` used at
check 11 is not part of the repository; per the specification it holds of
a script consisting solely of a public-key push plus `CHECKSIG` (a 33- or
65-byte key push followed by the key bytes and `OP_CHECKSIG`). -/
def is_bare_pubkey (s : Script) : Bool :=
  decide ((s.length = 35 ∧ byteAt s 0 = 0x21 ∧ byteAt s 34 = OP_CHECKSIG) ∨
    (s.length = 67 ∧ byteAt s 0 = 0x41 ∧ byteAt s 66 = OP_CHECKSIG))

/-- Modelled from the spec: the script library's `is_bare_multisig` used at
check 12 is not part of the repository; per the specification it holds of a
bare multisig script, recognized here as one ending in
`OP_CHECKMULTISIG` (0xae) and starting with a small-number opcode. -/
def is_bare_multisig (s : Script) : Bool :=
  decide (0 < s.length ∧ 0x51 ≤ byteAt s 0 ∧ byteAt s 0 ≤ 0x60 ∧
    byteAt s (s.length - 1) = 0xae)

/-- The local flag at source line 148: hardcoded `True`. -/
def reject_parasites : Bool := true

/-- One tag per `return False` site of `check_standard_tx`, named after the
diagnostic each site prints (`feeUnavailable` is the silent
`if fee is None` return at lines 159-160). -/
inductive Reason where
  | unrecognizedScript
  | parasite
  | overlayProtocol
  | feeUnavailable
  | lowFeeRate
  | weightExceeded
  | sigopBytes
  | tooManyAncestors
  | ancestorSizeTooLarge
  | tooManyDescendants
  | descendantSizeTooLarge
  | barePubkey
  | bareMultisig
  | scriptTooLarge
deriving DecidableEq, Repr

/-- The evaluator's outcome: `accept` for `return True`, `reject r` for the
`return False` site tagged `r`. -/
inductive Verdict where
  | accept
  | reject (r : Reason)
deriving DecidableEq, Repr

/-- Checks 7-10 of `check_standard_tx` (source lines 180-202): the four
mempool-topology comparisons, in source order, on the caller-supplied
statistics; `some r` is the first failing check's reason. -/
def topology_check (ctx : Context) : Option Reason :=
  if ctx.ancestorCount ≥ MAX_UNCONFIRMED_ANCESTORS then some .tooManyAncestors
  else if ctx.ancestorSize > MAX_ANCESTOR_SIZE_KB * 1000 then some .ancestorSizeTooLarge
  else if ctx.descendantCount ≥ MAX_DESCENDANT_COUNT then some .tooManyDescendants
  else if ctx.descendantSize > MAX_DESCENDANT_SIZE_KB * 1000 then some .descendantSizeTooLarge
  else none

/-- Checks 4-13 of `check_standard_tx` (source lines 157-224), the part
after the parasite gate, in source order. -/
def later_checks (tx : Tx) (ctx : Context) : Verdict :=
  match get_transaction_fee tx ctx with
  | none => .reject .feeUnavailable
  | some fee =>
    if fee_rate fee tx.weight < MIN_FEE_RATE then .reject .lowFeeRate
    else if adjusted_vsize tx > MAX_STANDARD_TX_WEIGHT then .reject .weightExceeded
    else if ¬ tx.vin.all (fun txin => decide (MIN_BYTES_PER_SIGOP ≤ txin.scriptSig.length))
      then .reject .sigopBytes
    else match topology_check ctx with
      | some r => .reject r
      | none =>
        if tx.vout.any (fun txout => is_bare_pubkey txout.scriptPubKey) then
          .reject .barePubkey
        else if tx.vout.any (fun txout => is_bare_multisig txout.scriptPubKey) then
          .reject .bareMultisig
        else if ¬ tx.vout.all
            (fun txout => decide (txout.scriptPubKey.length ≤ MAX_STANDARD_SCRIPTSIG_SIZE)) then
          .reject .scriptTooLarge
        else .accept

/-- `check_standard_tx` from the source, with each return site tagged:
check 1 rejects when some output script is non-standard, check 2 is the
hardcoded parasite gate, check 3 the overlay detector, and `later_checks`
covers checks 4-13. -/
def check_standard_tx_verdict (tx : Tx) (ctx : Context) : Verdict :=
  if ¬ tx.vout.all (fun txout => is_standard_script txout.scriptPubKey) then
    .reject .unrecognizedScript
  else if reject_parasites then .reject .parasite
  else if contains_non_bitcoin_protocol tx then .reject .overlayProtocol
  else later_checks tx ctx

/-- The boolean `check_standard_tx` returns: `True` exactly on `accept`. -/
def check_standard_tx (tx : Tx) (ctx : Context) : Bool :=
  match check_standard_tx_verdict tx ctx with
  | .accept => true
  | .reject _ => false

/-- Because the parasite gate is hardcoded on, the verdict only depends on
whether every output script is standard. -/
lemma check_standard_tx_verdict_eq (tx : Tx) (ctx : Context) :
    check_standard_tx_verdict tx ctx =
      if tx.vout.all (fun txout => is_standard_script txout.scriptPubKey) then
        Verdict.reject .parasite
      else Verdict.reject .unrecognizedScript := by
  simp only [check_standard_tx_verdict, reject_parasites]
  by_cases hall : tx.vout.all (fun txout => is_standard_script txout.scriptPubKey) = true
  · simp [hall]
  · simp [hall]

/-- The boolean result is `false` on every input. -/
lemma check_standard_tx_eq_false (tx : Tx) (ctx : Context) :
    check_standard_tx tx ctx = false := by
  unfold check_standard_tx
  rw [check_standard_tx_verdict_eq]
  by_cases hall : tx.vout.all (fun txout => is_standard_script txout.scriptPubKey) = true
  · simp [hall]
  · simp [hall]

/-- C1: a transaction with at least one output classified `unrecognized` is
rejected with the UnrecognizedScript reason, whatever the context (fees,
topology statistics) and whatever its other outputs: check 1 dominates
checks 2-13. -/
theorem unrecognized_script_dominates (tx : Tx) (ctx : Context)
    (h : ∃ o ∈ tx.vout, classify o.scriptPubKey = .unrecognized) :
    check_standard_tx_verdict tx ctx = .reject .unrecognizedScript := by
  obtain ⟨o, ho, hcl⟩ := h
  have hns : is_standard_script o.scriptPubKey = false := by
    rcases Bool.eq_false_or_eq_true (is_standard_script o.scriptPubKey) with ht | hf
    · exact absurd hcl ((is_standard_script_iff_classify _).mp ht)
    · exact hf
  have hall : tx.vout.all (fun txout => is_standard_script txout.scriptPubKey) = false := by
    rcases Bool.eq_false_or_eq_true
        (tx.vout.all (fun txout => is_standard_script txout.scriptPubKey)) with ht | hf
    · have := List.all_eq_true.mp ht o ho
      rw [hns] at this
      exact absurd this (by simp)
    · exact hf
  rw [check_standard_tx_verdict_eq, hall]
  simp

/-- Witness for C1: a transaction whose single output has an empty script,
under an arbitrary context. -/
theorem unrecognized_script_dominates_witness :
    check_standard_tx_verdict ⟨[], [⟨0, []⟩], 4, 1⟩ ⟨[], 0, 0, 0, 0⟩ =
      .reject .unrecognizedScript :=
  unrecognized_script_dominates ⟨[], [⟨0, []⟩], 4, 1⟩ ⟨[], 0, 0, 0, 0⟩
    ⟨⟨0, []⟩, by decide, by decide⟩

/-- C3: `check_standard_tx` never accepts: the boolean result is `false`
for every transaction and context, the tagged verdict is UnrecognizedScript
when some output script is non-standard and Parasite otherwise, and the
outcome is independent of the context (fees, topology statistics, checks
3-13 are dead code behind the hardcoded parasite gate). -/
theorem check_standard_tx_never_accepts (tx : Tx) (ctx ctx' : Context) :
    check_standard_tx tx ctx = false ∧
    check_standard_tx_verdict tx ctx =
      (if tx.vout.all (fun txout => is_standard_script txout.scriptPubKey) then
        Verdict.reject .parasite
      else Verdict.reject .unrecognizedScript) ∧
    check_standard_tx_verdict tx ctx = check_standard_tx_verdict tx ctx' :=
  ⟨check_standard_tx_eq_false tx ctx, check_standard_tx_verdict_eq tx ctx,
    (check_standard_tx_verdict_eq tx ctx).trans (check_standard_tx_verdict_eq tx ctx').symm⟩

/-- Scenario A transaction: one input with a 20-byte unlocking script, one
output paying 100000 satoshis to the exact P2PKH template, weight 400,
virtual size 100. -/
def txA : Tx :=
  ⟨[⟨List.replicate 20 0⟩], [⟨100000, p2pkh_template (List.replicate 20 0)⟩], 400, 100⟩

/-- Scenario A context: previous output worth 200000 satoshis (so the fee
is 100000, far above the minimum rate), and zero ancestor/descendant
statistics. -/
def ctxA : Context := ⟨[some 200000], 0, 0, 0, 0⟩

/-- C2 counterexample: a Scenario-A transaction — single exact-P2PKH
output, fee rate above the minimum, weight under the limit, zero
ancestors and descendants — is NOT accepted: `reject_parasites` is
hardcoded `True` in the source, so evaluation stops at check 2 with the
Parasite reason and the boolean result is `False`. -/
theorem scenario_a_not_accepted :
    (∀ o ∈ txA.vout, classify o.scriptPubKey = .payToPubkeyHash) ∧
    get_transaction_fee txA ctxA = some 100000 ∧
    MIN_FEE_RATE < fee_rate 100000 txA.weight ∧
    txA.weight ≤ MAX_STANDARD_TX_WEIGHT ∧
    adjusted_vsize txA ≤ MAX_STANDARD_TX_WEIGHT ∧
    ctxA.ancestorCount = 0 ∧ ctxA.ancestorSize = 0 ∧
    ctxA.descendantCount = 0 ∧ ctxA.descendantSize = 0 ∧
    check_standard_tx_verdict txA ctxA = .reject .parasite ∧
    check_standard_tx txA ctxA = false := by
  refine ⟨by decide, by decide, ?_, by decide, by decide, rfl, rfl, rfl, rfl,
    by decide, by decide⟩
  norm_num [fee_rate, MIN_FEE_RATE, txA]

/-- C2 amended: any transaction all of whose output scripts classify as
standard — in particular a Scenario-A transaction — is rejected at check 2
with the Parasite reason; `evaluate` returns Accept only if all thirteen
checks pass, which never happens because the hardcoded check 2 never
passes. -/
theorem all_standard_rejected_as_parasite (tx : Tx) (ctx : Context)
    (h : ∀ o ∈ tx.vout, classify o.scriptPubKey ≠ .unrecognized) :
    check_standard_tx_verdict tx ctx = .reject .parasite := by
  have hall : tx.vout.all (fun txout => is_standard_script txout.scriptPubKey) = true :=
    List.all_eq_true.mpr fun o ho => (is_standard_script_iff_classify _).mpr (h o ho)
  rw [check_standard_tx_verdict_eq, hall]
  simp

/-- Witness for the amended C2 at the Scenario-A transaction. -/
theorem all_standard_rejected_as_parasite_witness :
    check_standard_tx_verdict txA ctxA = .reject .parasite :=
  all_standard_rejected_as_parasite txA ctxA (by decide)

/-- Scenario D transaction: like Scenario A but paying 1000 satoshis. -/
def txD : Tx :=
  ⟨[⟨List.replicate 20 0⟩], [⟨1000, p2pkh_template (List.replicate 20 0)⟩], 400, 100⟩

/-- Scenario D context: the previous-output value for input 0 is missing. -/
def ctxD : Context := ⟨[none], 0, 0, 0, 0⟩

/-- C5 counterexample: with the previous-output value for input 0 missing,
no distinct MissingContext error is surfaced: `get_transaction_fee` yields
`None`, and `check_standard_tx` returns the very same `False` it returns
for policy rejections (the verdict is even the Parasite policy reason,
since the fee lookup sits behind the hardcoded parasite gate); the final
conjunct shows a genuine policy rejection producing the identical result
value. -/
theorem missing_context_folded_into_reject :
    prevValue ctxD 0 = none ∧
    get_transaction_fee txD ctxD = none ∧
    check_standard_tx_verdict txD ctxD = .reject .parasite ∧
    check_standard_tx txD ctxD = false ∧
    check_standard_tx ⟨[], [⟨0, []⟩], 4, 1⟩ ctxD = false := by
  decide

/-- If the previous-output value of some input is missing, the whole input
sum is unavailable. -/
lemma totalInputValue_eq_none (ctx : Context) (i : Nat) (h : prevValue ctx i = none) :
    ∀ n, i < n → totalInputValue ctx n = none := by
  intro n
  induction n with
  | zero => intro h0; exact absurd h0 (Nat.not_lt_zero i)
  | succ n ih =>
    intro hin
    rcases Nat.lt_or_ge i n with hlt | hge
    · unfold totalInputValue
      rw [ih hlt]
    · have hi : i = n := by omega
      subst hi
      unfold totalInputValue
      rw [h]
      cases totalInputValue ctx i <;> rfl

/-- C5 amended: a missing previous-output value for a referenced input
makes `get_transaction_fee` return `None`, and `check_standard_tx` folds
that into the same `False` result as a policy rejection; the source has no
separate MissingContext outcome (and the fee code is unreachable behind the
hardcoded parasite gate anyway). -/
theorem missing_prevout_folded (tx : Tx) (ctx : Context) (i : Nat)
    (hi : i < tx.vin.length) (h : prevValue ctx i = none) :
    get_transaction_fee tx ctx = none ∧ check_standard_tx tx ctx = false := by
  refine ⟨?_, check_standard_tx_eq_false tx ctx⟩
  unfold get_transaction_fee
  rw [totalInputValue_eq_none ctx i h tx.vin.length hi]

/-- Witness for the amended C5 at the Scenario-D input. -/
theorem missing_prevout_folded_witness :
    get_transaction_fee txD ctxD = none ∧ check_standard_tx txD ctxD = false :=
  missing_prevout_folded txD ctxD 0 (by decide) (by decide)

/-- C8: the topology checks (checks 7-10) reject exactly when the ancestor
count reaches the maximum, the ancestor size strictly exceeds
`MAX_ANCESTOR_SIZE_KB * 1000` bytes, the descendant count reaches the
maximum, or the descendant size strictly exceeds
`MAX_DESCENDANT_SIZE_KB * 1000` bytes — counts with `≥`, sizes with
strict `>` — and the reason reported is the first failing comparison in
that order, on the caller-supplied context values. -/
theorem topology_check_spec (ctx : Context) :
    ((topology_check ctx).isSome = true ↔
      (ctx.ancestorCount ≥ MAX_UNCONFIRMED_ANCESTORS ∨
        ctx.ancestorSize > MAX_ANCESTOR_SIZE_KB * 1000 ∨
        ctx.descendantCount ≥ MAX_DESCENDANT_COUNT ∨
        ctx.descendantSize > MAX_DESCENDANT_SIZE_KB * 1000)) ∧
    (topology_check ctx = some .tooManyAncestors ↔
      ctx.ancestorCount ≥ MAX_UNCONFIRMED_ANCESTORS) ∧
    (topology_check ctx = some .ancestorSizeTooLarge ↔
      (¬ ctx.ancestorCount ≥ MAX_UNCONFIRMED_ANCESTORS ∧
        ctx.ancestorSize > MAX_ANCESTOR_SIZE_KB * 1000)) ∧
    (topology_check ctx = some .tooManyDescendants ↔
      (¬ ctx.ancestorCount ≥ MAX_UNCONFIRMED_ANCESTORS ∧
        ¬ ctx.ancestorSize > MAX_ANCESTOR_SIZE_KB * 1000 ∧
        ctx.descendantCount ≥ MAX_DESCENDANT_COUNT)) ∧
    (topology_check ctx = some .descendantSizeTooLarge ↔
      (¬ ctx.ancestorCount ≥ MAX_UNCONFIRMED_ANCESTORS ∧
        ¬ ctx.ancestorSize > MAX_ANCESTOR_SIZE_KB * 1000 ∧
        ¬ ctx.descendantCount ≥ MAX_DESCENDANT_COUNT ∧
        ctx.descendantSize > MAX_DESCENDANT_SIZE_KB * 1000)) := by
  unfold topology_check
  split_ifs with h1 h2 h3 h4 <;> simp_all

/-- Modelled from the spec: the byte length of the external codec's
`txout.serialize()` — an 8-byte value field, a compact-size encoding of the
script length, and the script bytes; the specification only says to
"compute output's serialized byte length". -/
def varintLen (n : Nat) : Nat :=
  if n < 0xfd then 1 else if n < 0x10000 then 3 else if n < 0x100000000 then 5 else 9

def serializedSize (txout : TxOut) : Nat :=
  8 + varintLen txout.scriptPubKey.length + txout.scriptPubKey.length

/-- `is_dust` from source lines 77-80: the dust threshold is
`size * dust_relay_fee / 1000` (exact division, modelled in ℚ) and an
output is dust when its value is strictly below it. -/
def is_dust (txout : TxOut) (dust_relay_fee : Nat) : Bool :=
  decide ((txout.nValue : ℚ) < (serializedSize txout : ℚ) * (dust_relay_fee : ℚ) / 1000)

/-- C9: `is_dust` holds exactly when `1000 × value` is strictly below
`serialized size × relay fee rate` (the strict-inequality form of
`value < size × rate / 1000`), so an output whose value equals the
threshold exactly is not dust. -/
theorem is_dust_spec (txout : TxOut) (fee : Nat) :
    (is_dust txout fee = true ↔ 1000 * txout.nValue < serializedSize txout * fee) ∧
    (1000 * txout.nValue = serializedSize txout * fee → is_dust txout fee = false) := by
  have key : is_dust txout fee = true ↔ 1000 * txout.nValue < serializedSize txout * fee := by
    unfold is_dust
    rw [decide_eq_true_iff, lt_div_iff₀ (by norm_num : (0:ℚ) < 1000),
      mul_comm ((txout.nValue : Nat) : ℚ) 1000]
    exact_mod_cast Iff.rfl
  refine ⟨key, fun heq => ?_⟩
  rcases Bool.eq_false_or_eq_true (is_dust txout fee) with ht | hf
  · exact absurd (key.mp ht) (by omega)
  · exact hf

/-- Witness for C9: an empty-script output serializes to 9 bytes, so at a
relay fee of 1000 per kB the threshold is exactly 9; a 9-satoshi output is
exactly at the threshold and is not dust. -/
theorem is_dust_spec_witness : is_dust ⟨9, []⟩ 1000 = false :=
  (is_dust_spec ⟨9, []⟩ 1000).2 (by decide)

/-- C10 counterexample: for the fixed fee -4 (the source's fee, inputs
minus outputs as Python ints, can be negative) and positive weights
4 ≤ 8, the fee rate at weight 8 is -2, strictly above the fee rate -4 at
weight 4: `fee_rate` is not monotonically non-increasing in weight for
every fixed fee. -/
theorem fee_rate_not_antitone :
    (0 < (4:Nat) ∧ (4:Nat) ≤ 8) ∧ ¬ fee_rate (-4) 8 ≤ fee_rate (-4) 4 := by
  refine ⟨⟨by norm_num, by norm_num⟩, ?_⟩
  norm_num [fee_rate]

/-- C10 amended: for every fixed NON-NEGATIVE fee, `fee_rate` is
monotonically non-increasing in the transaction weight: for positive
weights `w1 ≤ w2` the rate at `w2` is at most the rate at `w1`. -/
theorem fee_rate_antitone_of_nonneg (f : Int) (w1 w2 : Nat)
    (hf : 0 ≤ f) (h1 : 0 < w1) (h12 : w1 ≤ w2) :
    fee_rate f w2 ≤ fee_rate f w1 := by
  unfold fee_rate
  have hw1 : (0:ℚ) < (w1:ℚ) / 4 := by
    have : (0:ℚ) < (w1:ℚ) := by exact_mod_cast h1
    linarith
  have hw12 : (w1:ℚ) / 4 ≤ (w2:ℚ) / 4 := by
    have : (w1:ℚ) ≤ (w2:ℚ) := by exact_mod_cast h12
    linarith
  exact div_le_div_of_nonneg_left (by exact_mod_cast hf) hw1 hw12

/-- Witness for the amended C10: fee 4 at weights 4 ≤ 8. -/
theorem fee_rate_antitone_of_nonneg_witness : fee_rate 4 8 ≤ fee_rate 4 4 :=
  fee_rate_antitone_of_nonneg 4 4 8 (by norm_num) (by norm_num) (by norm_num)

end KnotsSpam
